import Mathlib

/-!
Verification of the Crop Matcher page (`src/app/page.tsx`).

The page is a single React component; all of its logic is client-side UI
state management.  We embed it as a pure state machine:

* `Product` mirrors the `Product` interface.
* `State` collects the `useState` hooks of the component.
* The event handlers (`handleInputChange`, `handleKeyDown`,
  `selectSuggestion`, `handleSearch`, the focus / outside-click handlers
  and the `useEffect` that resets the highlight) become pure transition
  functions `State → State`, and `step` dispatches a discrete UI `Event`
  to the corresponding handler, with the render-level guards (a
  suggestion item can only be clicked or hovered while it is rendered,
  the search button is disabled while loading or blank) as conditions on
  the event.

JavaScript string primitives are embedded at the character-list level:
`toLowerCase` (ASCII case folding), `trim`, and substring `includes`.
-/

/-- ASCII case folding of one character, as `toLowerCase` acts on ASCII. -/
def lowerChar (c : Char) : Char :=
  if 65 ≤ c.toNat ∧ c.toNat ≤ 90 then Char.ofNat (c.toNat + 32) else c

/-- Embedding of `String.prototype.toLowerCase`. -/
def jsToLower (s : String) : String := ⟨s.data.map lowerChar⟩

/-- Whitespace recognizer used by the embedding of `trim`. -/
def isWsChar (c : Char) : Bool := c = ' ' || c = '\t' || c = '\n' || c = '\r'

/-- Drop whitespace from both ends of a character list. -/
def trimChars (l : List Char) : List Char :=
  ((l.dropWhile isWsChar).reverse.dropWhile isWsChar).reverse

/-- Embedding of `String.prototype.trim`. -/
def jsTrim (s : String) : String := ⟨trimChars s.data⟩

/-- `value.trim()` is falsy exactly when the trimmed string is empty. -/
def isBlank (s : String) : Bool := (jsTrim s).data.isEmpty

/-- Does the second list occur as a leading segment of the first? -/
def startsWithChars : List Char → List Char → Bool
  | _, [] => true
  | [], _ :: _ => false
  | a :: as, b :: bs => a = b && startsWithChars as bs

/-- Does `needle` occur contiguously inside `hay`? -/
def hasSubstr : List Char → List Char → Bool
  | [], needle => needle.isEmpty
  | c :: t, needle => startsWithChars (c :: t) needle || hasSubstr t needle

/-- Embedding of `hay.includes(needle)`. -/
def jsIncludes (hay needle : String) : Bool := hasSubstr hay.data needle.data

/-- The `Product` interface of `page.tsx` (lines 5–11). -/
structure Product where
  cropId : String
  title : String
  price : String
  image : String
  buyLink : String
deriving DecidableEq, Repr

/-- The filter predicate of `handleInputChange` (page.tsx lines 69–72):
`product.cropId.toLowerCase().includes(value.toLowerCase()) ||
 product.title.toLowerCase().includes(value.toLowerCase())`. -/
def matchesQuery (value : String) (p : Product) : Bool :=
  jsIncludes (jsToLower p.cropId) (jsToLower value) ||
  jsIncludes (jsToLower p.title) (jsToLower value)

/-- The suggestion computation of `handleInputChange` (page.tsx lines
68–78): for truthy `value.trim()`, filter the catalog and keep the first
5 matches; otherwise no suggestions.  This is the spec's `suggest`. -/
def suggest (products : List Product) (value : String) : List Product :=
  if isBlank value then []
  else (products.filter (matchesQuery value)).take 5

/-- The predicate of `handleSearch`'s lookup (page.tsx lines 144–146):
`product.cropId.toLowerCase().includes(input.trim().toLowerCase())`. -/
def matchesCropId (query : String) (p : Product) : Bool :=
  jsIncludes (jsToLower p.cropId) (jsToLower (jsTrim query))

/-- The lookup of `handleSearch` (page.tsx lines 144–146):
`products.find(...)`.  This is the spec's `findBest`. -/
def findBest (products : List Product) (query : String) : Option Product :=
  products.find? (matchesCropId query)

/-- The component state: one field per `useState` hook of `Home`
(page.tsx lines 14–21). -/
structure State where
  input : String
  suggestions : List Product
  showSuggestions : Bool
  result : Option (String × Product)
  error : String
  loading : Bool
  products : List Product
  selectedSuggestionIndex : Int
deriving DecidableEq, Repr

/-- The initial values of the `useState` hooks (page.tsx lines 14–21). -/
def initState : State :=
  { input := ""
    suggestions := []
    showSuggestions := false
    result := none
    error := ""
    loading := false
    products := []
    selectedSuggestionIndex := -1 }

/-- The dropdown is rendered exactly when
`showSuggestions && suggestions.length > 0` (page.tsx line 196); this is
the spec's `dropdownVisible`. -/
def dropdownVisible (s : State) : Bool :=
  s.showSuggestions && !s.suggestions.isEmpty

/-- `handleInputChange` (page.tsx lines 64–80): store the new text; if
`value.trim()` is truthy recompute the suggestions (filter, capped at 5)
and show the dropdown, else clear the suggestions and hide it; always
reset the highlight to -1. -/
def handleInputChange (s : State) (value : String) : State :=
  if isBlank value then
    { s with input := value
             suggestions := []
             showSuggestions := false
             selectedSuggestionIndex := -1 }
  else
    { s with input := value
             suggestions := suggest s.products value
             showSuggestions := true
             selectedSuggestionIndex := -1 }

/-- `selectSuggestion` (page.tsx lines 126–134): copy the product's
`cropId` into the input, close the dropdown, and set the result directly
from the already-known product. -/
def selectSuggestion (s : State) (p : Product) : State :=
  { s with input := p.cropId
           showSuggestions := false
           result := some (p.cropId, p) }

/-- The first half of `handleSearch` (page.tsx lines 139–141):
`setLoading(true); setError(""); setResult(null)`. -/
def searchStart (s : State) : State :=
  { s with loading := true, error := "", result := none }

/-- The `try`/`finally` body of `handleSearch` (page.tsx lines 143–161):
look up the first catalog entry whose `cropId` contains the trimmed
input; on a hit store `(input.trim(), matched)` as the result, on a miss
store the error message; `finally` clears the loading flag.  The `try`
body is a pure array lookup, so the `catch` branch (which would set
"Failed to fetch products.") has no Lean counterpart: nothing in the
body can throw. -/
def searchResolve (s : State) : State :=
  match findBest s.products s.input with
  | some matched =>
      { s with result := some (jsTrim s.input, matched), loading := false }
  | none =>
      { s with error := "No matching product found.", loading := false }

/-- `handleSearch` (page.tsx lines 136–162): return immediately on a
blank input, otherwise clear result/error, run the lookup, and store its
outcome. -/
def handleSearch (s : State) : State :=
  if isBlank s.input then s else searchResolve (searchStart s)

/-- The keys `handleKeyDown` distinguishes (page.tsx lines 83–124);
`other` stands for every remaining `e.key`. -/
inductive Key where
  | arrowDown
  | arrowUp
  | enter
  | escape
  | other
deriving DecidableEq, Repr

/-- The early-return block of `handleKeyDown` for a hidden dropdown
(page.tsx lines 84–94): Enter searches, ArrowDown re-opens a non-empty
suggestion list, every other key is ignored. -/
def handleKeyDownClosed (s : State) (k : Key) : State :=
  match k with
  | .enter => handleSearch s
  | .arrowDown =>
      if 0 < s.suggestions.length then { s with showSuggestions := true } else s
  | .arrowUp => s
  | .escape => s
  | .other => s

/-- The `switch` of `handleKeyDown` for a shown dropdown (page.tsx lines
96–123): ArrowDown/ArrowUp move the highlight with the source's clamping
conditionals, Enter selects the highlighted suggestion when the index is
in range and searches otherwise, Escape closes the dropdown and resets
the highlight. -/
def handleKeyDownOpen (s : State) (k : Key) : State :=
  match k with
  | .arrowDown =>
      { s with selectedSuggestionIndex :=
          if s.selectedSuggestionIndex < (s.suggestions.length : Int) - 1 then
            s.selectedSuggestionIndex + 1
          else s.selectedSuggestionIndex }
  | .arrowUp =>
      { s with selectedSuggestionIndex :=
          if 0 < s.selectedSuggestionIndex then
            s.selectedSuggestionIndex - 1
          else s.selectedSuggestionIndex }
  | .enter =>
      if h : 0 ≤ s.selectedSuggestionIndex ∧
             s.selectedSuggestionIndex < (s.suggestions.length : Int) then
        selectSuggestion s
          (s.suggestions.get ⟨s.selectedSuggestionIndex.toNat, by omega⟩)
      else handleSearch s
  | .escape =>
      { s with showSuggestions := false, selectedSuggestionIndex := -1 }
  | .other => s

/-- `handleKeyDown` (page.tsx lines 83–124). -/
def handleKeyDown (s : State) (k : Key) : State :=
  if s.showSuggestions = false then handleKeyDownClosed s k
  else handleKeyDownOpen s k

/-- The input's `onFocus` handler (page.tsx line 184):
`input.trim() && suggestions.length > 0 && setShowSuggestions(true)`. -/
def handleFocus (s : State) : State :=
  if isBlank s.input = false ∧ 0 < s.suggestions.length then
    { s with showSuggestions := true }
  else s

/-- `handleClickOutside` (page.tsx lines 43–48): a click outside both
the input and the dropdown closes the dropdown and resets the
highlight. -/
def handleClickOutside (s : State) : State :=
  { s with showSuggestions := false, selectedSuggestionIndex := -1 }

/-- The discrete UI events the component reacts to. -/
inductive Event where
  | inputChange (value : String)
  | keyDown (k : Key)
  | searchClick
  | clickSuggestion (i : Nat)
  | mouseEnterSuggestion (i : Nat)
  | focusInput
  | clickOutside
  | catalogLoaded (ps : List Product)

/-- One step of the interaction state machine: dispatch an event to its
handler.  The search button carries `disabled={loading || !input.trim()}`
(page.tsx line 240), and a suggestion item exists to be clicked or
hovered only while the dropdown is rendered and the index is in range
(page.tsx lines 196–208); those render-level guards condition the
corresponding events.  `catalogLoaded` is the resolution of the mount
fetch (page.tsx lines 27–39), which only populates `products`. -/
def step (s : State) (e : Event) : State :=
  match e with
  | .inputChange v => handleInputChange s v
  | .keyDown k => handleKeyDown s k
  | .searchClick =>
      if s.loading = true ∨ isBlank s.input = true then s else handleSearch s
  | .clickSuggestion i =>
      if h : dropdownVisible s = true ∧ i < s.suggestions.length then
        selectSuggestion s (s.suggestions.get ⟨i, h.2⟩)
      else s
  | .mouseEnterSuggestion i =>
      if dropdownVisible s = true ∧ i < s.suggestions.length then
        { s with selectedSuggestionIndex := (i : Int) }
      else s
  | .focusInput => handleFocus s
  | .clickOutside => handleClickOutside s
  | .catalogLoaded ps => { s with products := ps }

/-- States reachable from the initial render by a sequence of events. -/
inductive Reachable : State → Prop where
  | init : Reachable initState
  | next : ∀ {s : State} (e : Event), Reachable s → Reachable (step s e)

/-- The highlight is `-1` or a valid index into the suggestion list. -/
def IndexInv (s : State) : Prop :=
  -1 ≤ s.selectedSuggestionIndex ∧
  s.selectedSuggestionIndex < (s.suggestions.length : Int)

/-- A fixed sample catalog entry, used to instantiate theorems. -/
def pCorn : Product :=
  { cropId := "CORN01", title := "Sweet Corn", price := "10"
    image := "img1", buyLink := "link1" }

/-- A second sample catalog entry. -/
def pWheat : Product :=
  { cropId := "WHEAT02", title := "Winter Wheat", price := "12"
    image := "img2", buyLink := "link2" }

/-- A state whose dropdown is rendered, used to instantiate theorems. -/
def openState : State :=
  { initState with
      input := "corn"
      products := [pCorn, pWheat]
      suggestions := [pCorn, pWheat]
      showSuggestions := true }

/-- A state whose input is whitespace-only, used to instantiate theorems. -/
def blankState : State := { initState with input := "   " }

/-- A state ready for a successful explicit search. -/
def hitState : State :=
  { initState with input := "corn", products := [pCorn, pWheat] }

/-- `handleSearch` never touches the suggestion machinery: the
suggestion list, the highlight, the dropdown flag, the input text and
the catalog all pass through unchanged. -/
theorem handleSearch_frame (s : State) :
    (handleSearch s).suggestions = s.suggestions ∧
    (handleSearch s).selectedSuggestionIndex = s.selectedSuggestionIndex ∧
    (handleSearch s).showSuggestions = s.showSuggestions ∧
    (handleSearch s).input = s.input ∧
    (handleSearch s).products = s.products := by
  unfold handleSearch searchResolve searchStart
  split
  · exact ⟨rfl, rfl, rfl, rfl, rfl⟩
  · split <;> exact ⟨rfl, rfl, rfl, rfl, rfl⟩

/-- No key event ever changes the suggestion list. -/
theorem handleKeyDown_suggestions (s : State) (k : Key) :
    (handleKeyDown s k).suggestions = s.suggestions := by
  unfold handleKeyDown
  split
  · cases k
    · simp only [handleKeyDownClosed]
      split <;> rfl
    · rfl
    · exact (handleSearch_frame s).1
    · rfl
    · rfl
  · cases k
    · rfl
    · rfl
    · simp only [handleKeyDownOpen]
      split
      · rfl
      · exact (handleSearch_frame s).1
    · rfl
    · rfl

/-- A product whose `cropId` strictly extends `pCorn`'s, so that it
shadows `pCorn` in a `findBest` lookup for "CORN01". -/
def pCornLong : Product :=
  { cropId := "CORN011", title := "Long Corn", price := "11"
    image := "img3", buyLink := "link3" }

/-- `handleSearch` on a non-blank input is exactly the resolution of the
lookup applied to the cleared state. -/
theorem handleSearch_eq (s : State) (h : isBlank s.input = false) :
    handleSearch s =
      match findBest s.products s.input with
      | some matched =>
          { s with loading := false, error := ""
                   result := some (jsTrim s.input, matched) }
      | none =>
          { s with loading := false, error := "No matching product found."
                   result := none } := by
  unfold handleSearch
  rw [if_neg (by simp [h])]
  unfold searchResolve searchStart
  cases findBest s.products s.input <;> rfl

/-- C10: when `inputText` is blank (empty or whitespace-only), the
explicit search action returns at its early guard (page.tsx line 137)
and the entire state — result, errorMessage, isSearching and all — is
unchanged. -/
theorem handleSearch_blank_noop (s : State) (h : isBlank s.input = true) :
    handleSearch s = s := by
  unfold handleSearch
  rw [if_pos h]

/-- Witness for C10 at a whitespace-only input. -/
theorem handleSearch_blank_noop_witness :
    isBlank blankState.input = true ∧ handleSearch blankState = blankState :=
  ⟨by decide, handleSearch_blank_noop blankState (by decide)⟩

/-- C9: selecting a suggestion never touches `errorMessage` — it sets
the result while leaving the error exactly as it was — and consequently
a state with both a result and a non-empty error is possible. -/
theorem selectSuggestion_keeps_error :
    (∀ (s : State) (p : Product),
       (selectSuggestion s p).error = s.error ∧
       (selectSuggestion s p).result = some (p.cropId, p)) ∧
    (∃ (s : State) (p : Product),
       (selectSuggestion s p).error ≠ "" ∧
       (selectSuggestion s p).result ≠ none) := by
  refine ⟨fun s p => ⟨rfl, rfl⟩,
    ⟨{ initState with error := "No matching product found." }, pCorn, ?_, ?_⟩⟩
  · decide
  · decide

/-- C7: every suggestion selection — by click on a rendered item, or by
Enter while the highlight is a valid index — copies the product's
`cropId` into the input, closes the dropdown, and sets the result to
that very (cropId, Product) pair.  The pair is taken from the suggestion
itself, for any catalog whatsoever, so `findBest` plays no part: the
last conjunct exhibits a state where the stored result even disagrees
with what `findBest` would return for that `cropId`. -/
theorem selectSuggestion_sets_result :
    (∀ (s : State) (p : Product),
       (selectSuggestion s p).input = p.cropId ∧
       (selectSuggestion s p).showSuggestions = false ∧
       dropdownVisible (selectSuggestion s p) = false ∧
       (selectSuggestion s p).result = some (p.cropId, p)) ∧
    (∀ (s : State),
       s.showSuggestions = true →
       ∀ (h0 : 0 ≤ s.selectedSuggestionIndex)
         (hlt : s.selectedSuggestionIndex < (s.suggestions.length : Int)),
       handleKeyDown s .enter =
         selectSuggestion s
           (s.suggestions.get ⟨s.selectedSuggestionIndex.toNat, by omega⟩)) ∧
    (∀ (s : State) (i : Nat),
       dropdownVisible s = true →
       ∀ (hi : i < s.suggestions.length),
       step s (.clickSuggestion i) =
         selectSuggestion s (s.suggestions.get ⟨i, hi⟩)) ∧
    (∃ (s : State) (p : Product),
       (selectSuggestion s p).result = some (p.cropId, p) ∧
       findBest s.products p.cropId ≠ some p) := by
  refine ⟨fun s p => ⟨rfl, rfl, rfl, rfl⟩, ?_, ?_,
    ⟨{ initState with products := [pCornLong, pCorn] }, pCorn, rfl, by decide⟩⟩
  · intro s hs h0 hlt
    unfold handleKeyDown
    rw [if_neg (by simp [hs])]
    simp only [handleKeyDownOpen]
    rw [dif_pos ⟨h0, hlt⟩]
  · intro s i hvis hi
    simp only [step]
    rw [dif_pos ⟨hvis, hi⟩]

/-- Witness for C7: clicking the first suggestion of a concrete open
dropdown selects `pCorn`. -/
theorem selectSuggestion_sets_result_witness :
    dropdownVisible openState = true ∧
    step openState (.clickSuggestion 0) = selectSuggestion openState pCorn := by
  refine ⟨by decide, ?_⟩
  exact selectSuggestion_sets_result.2.2.1 openState 0 (by decide) (by decide)

/-- C1: the rendered dropdown (`showSuggestions && suggestions.length >
0`, page.tsx line 196) is never visible with an empty suggestion list;
and after any text-change event the dropdown is visible exactly when the
recomputed suggestion list is non-empty and the text is non-blank,
otherwise it is hidden — for a blank text even the `showSuggestions`
flag itself is cleared. -/
theorem dropdownVisible_inv :
    (∀ s : State, s.suggestions = [] → dropdownVisible s = false) ∧
    (∀ (s : State) (v : String),
       (handleInputChange s v).suggestions = suggest s.products v ∧
       (dropdownVisible (handleInputChange s v) = true ↔
         (suggest s.products v ≠ [] ∧ isBlank v = false)) ∧
       (isBlank v = true → (handleInputChange s v).showSuggestions = false)) := by
  constructor
  · intro s h
    simp [dropdownVisible, h]
  · intro s v
    by_cases hb : isBlank v = true
    · refine ⟨?_, ?_, fun _ => ?_⟩
      · simp [handleInputChange, hb, suggest]
      · simp [handleInputChange, hb, dropdownVisible]
      · simp [handleInputChange, hb]
    · have hb' : isBlank v = false := by simpa using hb
      refine ⟨?_, ?_, fun hcontra => ?_⟩
      · simp [handleInputChange, hb']
      · simp [handleInputChange, hb', dropdownVisible]
      · rw [hb'] at hcontra
        cases hcontra

/-- Witness for C1 at the initial state, whose suggestion list is
empty. -/
theorem dropdownVisible_inv_witness :
    initState.suggestions = [] ∧ dropdownVisible initState = false :=
  ⟨rfl, dropdownVisible_inv.1 initState rfl⟩

/-- C4: an explicit search on a non-blank input first clears both the
result and the error (page.tsx lines 140–141); when it completes, a hit
stores the (trimmed input, matched product) pair with an empty error,
and a miss stores exactly "No matching product found." with no result —
so at most one of the two is ever set afterwards. -/
theorem handleSearch_exclusive (s : State) (h : isBlank s.input = false) :
    (searchStart s).result = none ∧
    (searchStart s).error = "" ∧
    ((handleSearch s).result = none ∨ (handleSearch s).error = "") ∧
    (∀ p, findBest s.products s.input = some p →
       (handleSearch s).result = some (jsTrim s.input, p) ∧
       (handleSearch s).error = "") ∧
    (findBest s.products s.input = none →
       (handleSearch s).result = none ∧
       (handleSearch s).error = "No matching product found.") := by
  rw [handleSearch_eq s h]
  cases findBest s.products s.input with
  | some p =>
      refine ⟨rfl, rfl, Or.inr rfl, ?_, ?_⟩
      · intro q hq
        cases hq
        exact ⟨rfl, rfl⟩
      · intro hn
        cases hn
  | none =>
      refine ⟨rfl, rfl, Or.inl rfl, ?_, fun _ => ⟨rfl, rfl⟩⟩
      intro q hq
      cases hq

/-- Witness for C4 at a concrete hit: searching "corn" against the
sample catalog leaves the error empty. -/
theorem handleSearch_exclusive_witness :
    isBlank hitState.input = false ∧
    ((handleSearch hitState).result = none ∨ (handleSearch hitState).error = "") :=
  ⟨by decide, (handleSearch_exclusive hitState (by decide)).2.2.1⟩

/-- Counterexample to C2 as stated: for the whitespace-only query " "
the code returns no suggestions at all, yet `pCorn` is a match (its
title "Sweet Corn" contains " "), so the returned sequence is not the
first 5 matches. -/
theorem suggest_blank_counterexample :
    isBlank " " = true ∧
    matchesQuery " " pCorn = true ∧
    (([pCorn] : List Product).filter (matchesQuery " ")).take 5 = [pCorn] ∧
    suggest [pCorn] " " = [] ∧
    suggest [pCorn] " " ≠ (([pCorn] : List Product).filter (matchesQuery " ")).take 5 := by
  refine ⟨by decide, by decide, by decide, by decide, by decide⟩

/-- C2 (amended): `suggest` returns at most 5 products, each matching
the query case-insensitively in `cropId` or `title`, in catalog order
(a sublist of the catalog); for a non-blank query it is exactly the
first 5 matches, and for a blank (empty or whitespace-only) query it is
empty. -/
theorem suggest_spec (catalog : List Product) (q : String) :
    (suggest catalog q).length ≤ 5 ∧
    (∀ p ∈ suggest catalog q, matchesQuery q p = true) ∧
    (suggest catalog q).Sublist catalog ∧
    (isBlank q = false →
       suggest catalog q = (catalog.filter (matchesQuery q)).take 5) ∧
    (isBlank q = true → suggest catalog q = []) := by
  unfold suggest
  by_cases hb : isBlank q = true
  · rw [if_pos hb]
    refine ⟨by simp, by simp, List.nil_sublist catalog, ?_, fun _ => rfl⟩
    intro hcontra
    rw [hb] at hcontra
    cases hcontra
  · have hb' : isBlank q = false := Bool.eq_false_iff.mpr hb
    rw [if_neg hb]
    refine ⟨?_, ?_, ?_, fun _ => rfl, ?_⟩
    · exact List.length_take_le 5 (catalog.filter (matchesQuery q))
    · intro p hp
      exact List.of_mem_filter (List.mem_of_mem_take hp)
    · exact (List.take_sublist 5 _).trans (List.filter_sublist catalog)
    · intro hcontra
      rw [hb'] at hcontra
      cases hcontra

/-- Witness for C2 at a concrete non-blank query: "corn" surfaces
`pCorn` and `pCorn` indeed matches. -/
theorem suggest_spec_witness :
    pCorn ∈ suggest [pCorn, pWheat] "corn" ∧
    matchesQuery "corn" pCorn = true :=
  ⟨by decide, (suggest_spec [pCorn, pWheat] "corn").2.1 pCorn (by decide)⟩

/-- When `findBest` returns a product, that product matches and is the
first match: the catalog splits as `pre ++ p :: post` with no match in
`pre`. -/
theorem findBest_some_first (q : String) (p : Product) :
    ∀ catalog : List Product, findBest catalog q = some p →
      matchesCropId q p = true ∧
      ∃ pre post, catalog = pre ++ p :: post ∧
        ∀ x ∈ pre, matchesCropId q x = false := by
  intro catalog
  induction catalog with
  | nil => intro hp; cases hp
  | cons hd tl ih =>
      intro hp
      by_cases hh : matchesCropId q hd = true
      · have hhd : hd = p := by
          have : some hd = some p := by
            simpa [findBest, List.find?, hh] using hp
          cases this
          rfl
        subst hhd
        exact ⟨hh, [], tl, rfl, by simp⟩
      · have hh' : matchesCropId q hd = false := Bool.eq_false_iff.mpr hh
        have hp' : findBest tl q = some p := by
          simpa [findBest, List.find?, hh'] using hp
        obtain ⟨hm, pre, post, heq, hall⟩ := ih hp'
        refine ⟨hm, hd :: pre, post, by simp [heq], ?_⟩
        intro x hx
        rcases List.mem_cons.mp hx with rfl | hx
        · exact hh'
        · exact hall x hx

/-- C3: `findBest` returns the first catalog entry, in catalog order,
whose case-folded `cropId` contains the case-folded trimmed query; it is
`none` exactly when no entry's `cropId` contains it. -/
theorem findBest_spec (catalog : List Product) (q : String) :
    (findBest catalog q = none ↔ ∀ p ∈ catalog, matchesCropId q p = false) ∧
    (∀ p, findBest catalog q = some p →
       matchesCropId q p = true ∧
       ∃ pre post, catalog = pre ++ p :: post ∧
         ∀ x ∈ pre, matchesCropId q x = false) := by
  constructor
  · unfold findBest
    rw [List.find?_eq_none]
    constructor
    · intro h p hp
      exact Bool.eq_false_iff.mpr (h p hp)
    · intro h p hp
      rw [h p hp]
      simp
  · intro p hp
    exact findBest_some_first q p catalog hp

/-- Witness for C3: looking up "wheat" in the sample catalog returns
`pWheat`, which matches on its `cropId`. -/
theorem findBest_spec_witness :
    findBest [pCorn, pWheat] "wheat" = some pWheat ∧
    matchesCropId "wheat" pWheat = true :=
  ⟨by decide, ((findBest_spec [pCorn, pWheat] "wheat").2 pWheat (by decide)).1⟩

/-- A state with an open two-entry dropdown and the last entry
highlighted, used to instantiate the navigation theorem. -/
def navState : State := { openState with selectedSuggestionIndex := 1 }

/-- C5: while the dropdown is rendered, ArrowDown moves the highlight to
`min (i+1) (len-1)` — in particular it lands in `[0, len-1]` and stays
put at the last index — and ArrowUp decrements only when the highlight
is positive, so it stays at 0 and likewise stays at -1, never wrapping
around. -/
theorem keyNav_clamped (s : State)
    (hvis : dropdownVisible s = true)
    (hinv : -1 ≤ s.selectedSuggestionIndex ∧
            s.selectedSuggestionIndex < (s.suggestions.length : Int)) :
    ((handleKeyDown s .arrowDown).selectedSuggestionIndex =
        min (s.selectedSuggestionIndex + 1) ((s.suggestions.length : Int) - 1) ∧
      0 ≤ (handleKeyDown s .arrowDown).selectedSuggestionIndex ∧
      (handleKeyDown s .arrowDown).selectedSuggestionIndex <
        (s.suggestions.length : Int)) ∧
    ((handleKeyDown s .arrowUp).selectedSuggestionIndex =
        (if 0 < s.selectedSuggestionIndex then s.selectedSuggestionIndex - 1
         else s.selectedSuggestionIndex) ∧
      -1 ≤ (handleKeyDown s .arrowUp).selectedSuggestionIndex ∧
      (handleKeyDown s .arrowUp).selectedSuggestionIndex <
        (s.suggestions.length : Int)) ∧
    (s.selectedSuggestionIndex = 0 →
      (handleKeyDown s .arrowUp).selectedSuggestionIndex = 0) := by
  have hshow : s.showSuggestions = true := by
    have := hvis
    simp [dropdownVisible, Bool.and_eq_true] at this
    exact this.1
  have hlen : 0 < s.suggestions.length := by
    have := hvis
    simp [dropdownVisible, Bool.and_eq_true, List.isEmpty_iff,
      List.length_pos] at this
    exact List.length_pos.mpr this.2
  have hlen' : (1 : Int) ≤ (s.suggestions.length : Int) := by
    exact_mod_cast hlen
  have hdown : handleKeyDown s .arrowDown = handleKeyDownOpen s .arrowDown := by
    unfold handleKeyDown
    rw [if_neg (by simp [hshow])]
  have hup : handleKeyDown s .arrowUp = handleKeyDownOpen s .arrowUp := by
    unfold handleKeyDown
    rw [if_neg (by simp [hshow])]
  rw [hdown, hup]
  obtain ⟨hlo, hhi⟩ := hinv
  have hdownIdx : (handleKeyDownOpen s .arrowDown).selectedSuggestionIndex =
      (if s.selectedSuggestionIndex < (s.suggestions.length : Int) - 1 then
        s.selectedSuggestionIndex + 1 else s.selectedSuggestionIndex) := rfl
  have hupIdx : (handleKeyDownOpen s .arrowUp).selectedSuggestionIndex =
      (if 0 < s.selectedSuggestionIndex then s.selectedSuggestionIndex - 1
       else s.selectedSuggestionIndex) := rfl
  rw [hdownIdx, hupIdx]
  refine ⟨⟨?_, ?_, ?_⟩, ⟨rfl, ?_, ?_⟩, fun h0 => ?_⟩ <;> split <;> omega

/-- Witness for C5: in a concrete open dropdown with two suggestions and
the last one highlighted, ArrowDown keeps the highlight at 1. -/
theorem keyNav_clamped_witness :
    dropdownVisible navState = true ∧
    (handleKeyDown navState .arrowDown).selectedSuggestionIndex =
      min (navState.selectedSuggestionIndex + 1)
        ((navState.suggestions.length : Int) - 1) :=
  ⟨by decide, (keyNav_clamped navState (by decide) ⟨by decide, by decide⟩).1.1⟩

/-- The index invariant transfers along equal suggestion/highlight
fields. -/
theorem indexInv_of_frame {s t : State}
    (hsug : t.suggestions = s.suggestions)
    (hidx : t.selectedSuggestionIndex = s.selectedSuggestionIndex)
    (h : IndexInv s) : IndexInv t := by
  unfold IndexInv at *
  rw [hsug, hidx]
  exact h

/-- A state whose highlight was just reset to -1 satisfies the index
invariant. -/
theorem indexInv_reset {t : State} (hidx : t.selectedSuggestionIndex = -1) :
    IndexInv t := by
  unfold IndexInv
  rw [hidx]
  exact ⟨by omega, by omega⟩

/-- Every key event preserves the index invariant. -/
theorem handleKeyDown_indexInv (s : State) (k : Key) (h : IndexInv s) :
    IndexInv (handleKeyDown s k) := by
  obtain ⟨hlo, hhi⟩ := h
  unfold handleKeyDown
  split
  · cases k
    · simp only [handleKeyDownClosed]
      split
      · exact ⟨hlo, hhi⟩
      · exact ⟨hlo, hhi⟩
    · exact ⟨hlo, hhi⟩
    · exact indexInv_of_frame (handleSearch_frame s).1
        (handleSearch_frame s).2.1 ⟨hlo, hhi⟩
    · exact ⟨hlo, hhi⟩
    · exact ⟨hlo, hhi⟩
  · cases k
    · constructor
      · show -1 ≤ (if s.selectedSuggestionIndex < (s.suggestions.length : Int) - 1
            then s.selectedSuggestionIndex + 1 else s.selectedSuggestionIndex)
        split <;> omega
      · show (if s.selectedSuggestionIndex < (s.suggestions.length : Int) - 1
            then s.selectedSuggestionIndex + 1 else s.selectedSuggestionIndex) <
            (s.suggestions.length : Int)
        split <;> omega
    · constructor
      · show -1 ≤ (if 0 < s.selectedSuggestionIndex
            then s.selectedSuggestionIndex - 1 else s.selectedSuggestionIndex)
        split <;> omega
      · show (if 0 < s.selectedSuggestionIndex
            then s.selectedSuggestionIndex - 1 else s.selectedSuggestionIndex) <
            (s.suggestions.length : Int)
        split <;> omega
    · simp only [handleKeyDownOpen]
      split
      · exact ⟨hlo, hhi⟩
      · exact indexInv_of_frame (handleSearch_frame s).1
          (handleSearch_frame s).2.1 ⟨hlo, hhi⟩
    · exact indexInv_reset rfl
    · exact ⟨hlo, hhi⟩

/-- C6: `highlightedIndex` is within `[-1, len(suggestions)-1]` at the
initial render and after every event, and any event that changes the
suggestion list (only a text change can) resets it to -1. -/
theorem highlightedIndex_inv :
    IndexInv initState ∧
    (∀ (s : State) (e : Event), IndexInv s → IndexInv (step s e)) ∧
    (∀ (s : State) (e : Event), (step s e).suggestions ≠ s.suggestions →
       (step s e).selectedSuggestionIndex = -1) := by
  refine ⟨⟨by decide, by decide⟩, ?_, ?_⟩
  · intro s e h
    cases e with
    | inputChange v =>
        show IndexInv (handleInputChange s v)
        unfold handleInputChange
        split
        · exact indexInv_reset rfl
        · exact indexInv_reset rfl
    | keyDown k => exact handleKeyDown_indexInv s k h
    | searchClick =>
        simp only [step]
        split
        · exact h
        · exact indexInv_of_frame (handleSearch_frame s).1
            (handleSearch_frame s).2.1 h
    | clickSuggestion i =>
        simp only [step]
        split
        · exact h
        · exact h
    | mouseEnterSuggestion i =>
        simp only [step]
        split
        · next hcond =>
            obtain ⟨-, hi⟩ := hcond
            constructor
            · show -1 ≤ (i : Int)
              omega
            · show (i : Int) < (s.suggestions.length : Int)
              omega
        · exact h
    | focusInput =>
        show IndexInv (handleFocus s)
        unfold handleFocus
        split
        · exact h
        · exact h
    | clickOutside => exact indexInv_reset rfl
    | catalogLoaded ps => exact h
  · intro s e hne
    cases e with
    | inputChange v =>
        show (handleInputChange s v).selectedSuggestionIndex = -1
        unfold handleInputChange
        split
        · rfl
        · rfl
    | keyDown k => exact absurd (handleKeyDown_suggestions s k) hne
    | searchClick =>
        revert hne
        simp only [step]
        split
        · intro hne; exact absurd rfl hne
        · intro hne; exact absurd (handleSearch_frame s).1 hne
    | clickSuggestion i =>
        revert hne
        simp only [step]
        split
        · intro hne; exact absurd rfl hne
        · intro hne; exact absurd rfl hne
    | mouseEnterSuggestion i =>
        revert hne
        simp only [step]
        split
        · intro hne; exact absurd rfl hne
        · intro hne; exact absurd rfl hne
    | focusInput =>
        revert hne
        show (handleFocus s).suggestions ≠ s.suggestions →
          (handleFocus s).selectedSuggestionIndex = -1
        unfold handleFocus
        split
        · intro hne; exact absurd rfl hne
        · intro hne; exact absurd rfl hne
    | clickOutside => exact absurd rfl hne
    | catalogLoaded ps => exact absurd rfl hne

/-- Witness for C6: one ArrowDown step from the initial state keeps the
invariant. -/
theorem highlightedIndex_inv_witness :
    IndexInv (step initState (.keyDown .arrowDown)) :=
  highlightedIndex_inv.2.1 initState (.keyDown .arrowDown) ⟨by decide, by decide⟩

/-- An explicit search leaves the error as it was (blank input), clears
it (hit), or sets the no-match message (miss) — nothing else. -/
theorem handleSearch_error_cases (s : State) :
    (handleSearch s).error = s.error ∨ (handleSearch s).error = "" ∨
      (handleSearch s).error = "No matching product found." := by
  unfold handleSearch searchResolve searchStart
  split
  · exact Or.inl rfl
  · split
    · exact Or.inr (Or.inl rfl)
    · exact Or.inr (Or.inr rfl)

/-- A key event leaves the error as it was, clears it, or sets the
no-match message. -/
theorem handleKeyDown_error_cases (s : State) (k : Key) :
    (handleKeyDown s k).error = s.error ∨ (handleKeyDown s k).error = "" ∨
      (handleKeyDown s k).error = "No matching product found." := by
  unfold handleKeyDown
  split
  · cases k
    · simp only [handleKeyDownClosed]
      split
      · exact Or.inl rfl
      · exact Or.inl rfl
    · exact Or.inl rfl
    · exact handleSearch_error_cases s
    · exact Or.inl rfl
    · exact Or.inl rfl
  · cases k
    · exact Or.inl rfl
    · exact Or.inl rfl
    · simp only [handleKeyDownOpen]
      split
      · exact Or.inl rfl
      · exact handleSearch_error_cases s
    · exact Or.inl rfl
    · exact Or.inl rfl

/-- Any event leaves the error as it was, clears it, or sets the
no-match message. -/
theorem step_error_cases (s : State) (e : Event) :
    (step s e).error = s.error ∨ (step s e).error = "" ∨
      (step s e).error = "No matching product found." := by
  cases e with
  | inputChange v =>
      show (handleInputChange s v).error = s.error ∨ _ ∨ _
      unfold handleInputChange
      split
      · exact Or.inl rfl
      · exact Or.inl rfl
  | keyDown k => exact handleKeyDown_error_cases s k
  | searchClick =>
      simp only [step]
      split
      · exact Or.inl rfl
      · exact handleSearch_error_cases s
  | clickSuggestion i =>
      simp only [step]
      split
      · exact Or.inl rfl
      · exact Or.inl rfl
  | mouseEnterSuggestion i =>
      simp only [step]
      split
      · exact Or.inl rfl
      · exact Or.inl rfl
  | focusInput =>
      show (handleFocus s).error = s.error ∨ _ ∨ _
      unfold handleFocus
      split
      · exact Or.inl rfl
      · exact Or.inl rfl
  | clickOutside => exact Or.inl rfl
  | catalogLoaded ps => exact Or.inl rfl

/-- C8: in every state reachable from the initial render, the error
message is empty or exactly "No matching product found."; in particular
the catch-branch message "Failed to fetch products." of `handleSearch`
never appears — the search body is a pure in-memory lookup, so no event
can produce it. -/
theorem reachable_error_ok (s : State) (h : Reachable s) :
    (s.error = "" ∨ s.error = "No matching product found.") ∧
    s.error ≠ "Failed to fetch products." := by
  induction h with
  | init => exact ⟨Or.inl rfl, by decide⟩
  | next e hr ih =>
      rename_i t
      obtain ⟨hok, -⟩ := ih
      have hcases := step_error_cases t e
      have hok' : (step t e).error = "" ∨
          (step t e).error = "No matching product found." := by
        rcases hcases with hc | hc | hc
        · rw [hc]; exact hok
        · exact Or.inl hc
        · exact Or.inr hc
      refine ⟨hok', ?_⟩
      rcases hok' with h1 | h1 <;> rw [h1] <;> decide

/-- Witness for C8 at the initial state. -/
theorem reachable_error_ok_witness :
    (initState.error = "" ∨ initState.error = "No matching product found.") ∧
    initState.error ≠ "Failed to fetch products." :=
  reachable_error_ok initState Reachable.init
